import Mathlib

/-!
# Verification of the Snowflake SQL-API client core

Shallow embedding of the remote query-execution engine of this repository:

* `app/security.py` — JWT generation and the `(token, expiry)` cache
  (`get_snowflake_jwt`);
* `app/snowflake_client.py` — binding formatting (`_format_bindings`),
  row decoding (`process_rows`), partition URL construction and the
  skip-index-0 rule, concurrent partition fetching (`asyncio.gather`),
  the streaming executor (`execute_query_stream`), its eager drain
  (`execute_query`), and `check_connection`.

Python machine-level details are modelled as follows: wall-clock times are
`Int` seconds; a signed JWT string is represented by its payload record
(RS256 signing of a deterministically serialized payload is injective, so
two tokens are the same string iff their payloads coincide); the network
is an explicit environment mapping requests to outcomes; `asyncio`
completion order is an explicit schedule (the order in which in-flight
tasks finish); exceptions are values of an explicit exception type and the
generator's `try/except` chain is an explicit handler function.
-/

/-! ## Auth Token Provider (`app/security.py`) -/

/-- Python `str.lower()` for the ASCII identifiers this wire protocol
carries, implemented character-wise so it evaluates by kernel reduction. -/
def pyLower (s : String) : String := ⟨s.data.map Char.toLower⟩

/-- Python `str.upper()`, character-wise. -/
def pyUpper (s : String) : String := ⟨s.data.map Char.toUpper⟩

/-- Python `str.startswith`, character-wise. -/
def pyStartsWith (s pre : String) : Bool := pre.data.isPrefixOf s.data

/-- Identity configuration consumed by `get_snowflake_jwt`: account, user
and the base64 SHA-256 fingerprint of the public key (the fingerprint is a
pure function of the private key, which is fixed for the process, so it is
carried as an opaque string). -/
structure Creds where
  account : String
  user : String
  fingerprint : String
deriving DecidableEq, Repr

/-- A signed JWT, represented by its payload.  `jwt.encode` serializes the
payload deterministically and RS256 signing is deterministic, so distinct
payloads give distinct token strings and equal payloads give equal
strings. -/
structure JwtToken where
  iss : String
  sub : String
  iat : Int
  exp : Int
deriving DecidableEq, Repr

/-- `timedelta(minutes=59)` in seconds (`lifetime` in the source). -/
def tokenLifetime : Int := 59 * 60

/-- `timedelta(minutes=5)` in seconds: the renewal buffer used by the cache
check `now < (expires_at - timedelta(minutes=5))`. -/
def renewalBuffer : Int := 5 * 60

/-- The token built in the body of `get_snowflake_jwt`:
`iss = "{ACCOUNT}.{USER}.SHA256:{fingerprint}"`, `sub = "{ACCOUNT}.{USER}"`,
`iat = now`, `exp = now + 59 minutes`. -/
def makeJwt (c : Creds) (now : Int) : JwtToken :=
  let qualified_username := pyUpper c.account ++ "." ++ pyUpper c.user
  ⟨qualified_username ++ ".SHA256:" ++ c.fingerprint, qualified_username,
   now, now + tokenLifetime⟩

/-- `get_snowflake_jwt` with the module-global `_JWT_CACHE` passed and
returned explicitly.  Returns the token handed to the caller and the cache
after the call.  Mirrors the source: if a cache entry exists and
`now < expires_at - 5 minutes` the cached token is returned unchanged;
otherwise a fresh token is generated and cached as
`(token, now + 59 minutes)`. -/
def get_snowflake_jwt (c : Creds) (cache : Option (JwtToken × Int))
    (now : Int) : JwtToken × Option (JwtToken × Int) :=
  match cache with
  | some (token, expires_at) =>
    if now < expires_at - renewalBuffer then
      (token, some (token, expires_at))
    else
      let t := makeJwt c now
      (t, some (t, now + tokenLifetime))
  | none =>
    let t := makeJwt c now
    (t, some (t, now + tokenLifetime))

/-! ## Binding formatting (`SnowflakeClient._format_bindings`) -/

/-- Python values that can appear in a bindings dict.  `pyFloat` carries
the result of Python `str(value)` opaquely (float-to-string rendering is
not re-modelled); the other constructors carry the value itself. -/
inductive PyVal where
  | pyBool (b : Bool)
  | pyInt (n : Int)
  | pyFloat (rendered : String)
  | pyStr (s : String)
deriving DecidableEq, Repr

/-- Python `isinstance(value, int)`.  In Python `bool` is a subclass of
`int`, so booleans satisfy this check. -/
def isinstance_int : PyVal → Bool
  | .pyBool _ => true
  | .pyInt _ => true
  | _ => false

/-- Python `isinstance(value, float)`.  Booleans and ints are not floats. -/
def isinstance_float : PyVal → Bool
  | .pyFloat _ => true
  | _ => false

/-- Python `str(value)`:  `str(True) = "True"`, `str(False) = "False"`,
ints render in decimal. -/
def pyStrOf : PyVal → String
  | .pyBool true => "True"
  | .pyBool false => "False"
  | .pyInt n => toString n
  | .pyFloat rendered => rendered
  | .pyStr s => s

/-- One formatted binding `{type: ..., value: ...}`. -/
structure BindingSpec where
  type : String
  value : String
deriving DecidableEq, Repr

/-- `_format_bindings`: dispatches on `isinstance(value, int)`, then
`isinstance(value, float)`, else TEXT.  The dict is modelled as an
association list in insertion order. -/
def _format_bindings (bindings : List (String × PyVal)) :
    List (String × BindingSpec) :=
  bindings.map fun kv =>
    (kv.1,
      if isinstance_int kv.2 then ⟨"FIXED", pyStrOf kv.2⟩
      else if isinstance_float kv.2 then ⟨"REAL", pyStrOf kv.2⟩
      else ⟨"TEXT", pyStrOf kv.2⟩)

/-! ## Row decoding (`process_rows`) -/

/-- A decoded row: the Python dict built by `dict(zip(column_names, row))`,
modelled as an association list in key-insertion order. -/
abbrev Row := List (String × String)

/-- One step of Python dict construction: assigning `d[k] = v` keeps the
first-insertion position of `k` but overwrites its value; a new key is
appended. -/
def dictInsert (d : List (String × String)) (k : String) (v : String) :
    List (String × String) :=
  if d.any (fun p => p.1 == k) then
    d.map fun p => if p.1 == k then (k, v) else p
  else
    d ++ [(k, v)]

/-- Python `dict(pairs)`: left fold of `dictInsert` over the pairs. -/
def dictOfPairs (ps : List (String × String)) : Row :=
  ps.foldl (fun d p => dictInsert d p.1 p.2) []

/-- `process_rows` (defined inside `execute_query_stream`):
`dict(zip(column_names, row))` for each raw row.  `zip` stops at the
shorter of the two lists. -/
def process_rows (column_names : List String) (rows : List (List String)) :
    List Row :=
  rows.map fun row => dictOfPairs (column_names.zip row)

/-! ## Wire model (`app/snowflake_client.py`)

The upstream API is modelled as an explicit environment: the outcome of the
`POST /api/v2/statements` request (a function of the payload) and the
outcome of each partition `GET` (a function of the URL).  A response is
either a 2xx success carrying the parsed JSON body, a non-2xx status (on
which `response.raise_for_status()` raises `httpx.HTTPStatusError`), or a
transport-level failure. -/

/-- The fields of a parsed JSON error body that the 422 handler reads
(`error_data.get("code")`, `error_data.get("message")`). -/
structure ErrBody where
  code : Option String
  message : Option String
deriving DecidableEq, Repr

/-- Outcome of one HTTP request.  `success` is a 2xx response with parsed
body `ρ`; `httpError` is a non-2xx response with its status, `response.text`
and, when the body is JSON-parseable, the parsed error object; `netError`
is a transport exception (connect failure, timeout, ...). -/
inductive HttpOutcome (ρ : Type) where
  | success (resp : ρ)
  | httpError (status : Nat) (text : String) (body : Option ErrBody)
  | netError (msg : String)
deriving DecidableEq, Repr

/-- One entry of `resultSetMetaData.partitionInfo`; only `url` is consumed
(`partition.get("url")`). -/
structure PartitionDesc where
  url : Option String
deriving DecidableEq, Repr

/-- The fields of `resultSetMetaData` the client reads.  `rowType` is the
list of `col["name"]` strings (only the `name` key of each column object is
consumed); it is `none` when the `rowType` key is absent (keyed access
raises `KeyError`). -/
structure RSMeta where
  rowType : Option (List String)
  partitionInfo : Option (List PartitionDesc)
  numRows : Option Nat
deriving DecidableEq, Repr

/-- The fields of the parsed submission response body the client reads.
`Option` marks keys that may be absent: `data["statementHandle"]` and
`data["resultSetMetaData"]` are keyed accesses (raise `KeyError` when
absent); `code`, `message` and `data` are read with `.get`. -/
structure SubmitResponse where
  statementHandle : Option String
  code : Option String
  message : Option String
  resultSetMetaData : Option RSMeta
  data : Option (List (List String))
deriving DecidableEq, Repr

/-- Body of a partition `GET` response; `data.get("data", [])`. -/
structure PartResponse where
  data : Option (List (List String))
deriving DecidableEq, Repr

/-- Python exceptions that can arise inside `execute_query_stream`'s `try`
block.  `httpStatusError` is `httpx.HTTPStatusError` with its attached
response; `netExc` any transport exception; `keyError` a missing dict key;
`snowflakeMsg` the `Exception(f"Snowflake Error: {message}")` raised on a
failing top-level code; `snowflakeCoded` the
`Exception(f"Snowflake Error [{code}]: {message}")` constructed by the 422
handler; `gatherPending` marks a gather whose completion schedule never
finishes every task (unreachable for complete schedules). -/
inductive PyExc where
  | httpStatusError (status : Nat) (text : String) (body : Option ErrBody)
  | netExc (msg : String)
  | keyError (key : String)
  | snowflakeMsg (message : Option String)
  | snowflakeCoded (code : String) (message : String)
  | gatherPending
deriving DecidableEq, Repr

/-- The error the 422 handler tries to raise from a parseable body:
`code = error_data.get("code", "UNKNOWN")`,
`message = error_data.get("message", e.response.text)`.  `none` when the
body is not JSON-parseable (`e.response.json()` raises). -/
def attempted422 (text : String) (body : Option ErrBody) : Option PyExc :=
  body.map fun b =>
    PyExc.snowflakeCoded (b.code.getD "UNKNOWN") (b.message.getD text)

/-- The `except` chain of `execute_query_stream` (source lines 206-222),
applied to the exception escaping the `try` block.  For a 422
`HTTPStatusError` the handler parses the body and executes
`raise Exception(f"Snowflake Error [{code}]: {message}")`, but that raise
sits inside the handler's own `try`, whose `except Exception` re-raises the
original error `e`; so the attempted error never escapes and every path
re-raises the incoming exception unchanged. -/
def handleExc : PyExc → PyExc
  | .httpStatusError status text body =>
    if status == 422 then
      match attempted422 text body with
      | some _ => .httpStatusError status text body
      | none => .httpStatusError status text body
    else .httpStatusError status text body
  | e => e

/-- The configuration fields consumed when building the request payload
(`settings.SNOWFLAKE_WAREHOUSE`, `..._DATABASE`, `..._SCHEMA`). -/
structure Settings where
  warehouse : String
  database : String
  schema : String
deriving DecidableEq, Repr

/-- The JSON payload of `POST /api/v2/statements` as built in
`execute_query_stream` (source lines 93-105): statement text,
warehouse/database/schema, `timeout: 60`,
`resultSetMetaData: {format: "json"}`, and the formatted bindings when a
non-empty bindings dict was supplied (`if bindings:`, so an empty dict is
falsy and formats no bindings key). -/
structure StatementPayload where
  statement : String
  warehouse : String
  database : String
  schema : String
  timeout : Nat
  resultFormat : String
  bindings : Option (List (String × BindingSpec))
deriving DecidableEq, Repr

/-- Builds the submission payload from settings, the query text and the
optional bindings dict. -/
def buildPayload (st : Settings) (query : String)
    (bindings : Option (List (String × PyVal))) : StatementPayload :=
  ⟨query, st.warehouse, st.database, st.schema, 60, "json",
    match bindings with
    | none => none
    | some [] => none
    | some bs => some (_format_bindings bs)⟩

/-- The network environment of one client: the base URL computed in
`SnowflakeClient.__init__`, the outcome of the statement-submission POST as
a function of its payload, and the outcome of a partition GET as a function
of its URL. -/
structure NetEnv where
  baseUrl : String
  post : StatementPayload → HttpOutcome SubmitResponse
  getPartition : String → HttpOutcome PartResponse


/-! ## `asyncio.gather` (fan-out / fan-in)

`asyncio.gather(*tasks)` starts every task, lets them finish in whatever
order the network dictates, and returns their results **in submission
order**; the first exception to occur (in completion order) propagates.
The completion order is modelled as an explicit schedule: a list of task
indices in the order the tasks finish.  `fillSlots` simulates the fan-in:
as each scheduled task completes, its result is stored in its own slot;
`gather` returns the slots read out in submission order. -/

/-- Fan-in simulation: process the schedule left to right, storing the
result of task `i` into slot `i` (a schedule entry out of range is a
no-op). -/
def fillSlots (tasks : List α) : List Nat → List (Option α) → List (Option α)
  | [], slots => slots
  | i :: rest, slots => fillSlots tasks rest (slots.set i tasks[i]?)

/-- Read the filled slots out in submission order: `some results` when
every slot was filled, `none` when some task never completed under the
schedule. -/
def readSlots : List (Option α) → Option (List α)
  | [] => some []
  | none :: _ => none
  | some a :: rest => (readSlots rest).map (a :: ·)

/-- Read-out of the fan-in: `some results` when every slot was filled,
`none` when some task never completed under the schedule. -/
def gatherValues (tasks : List α) (sched : List Nat) : Option (List α) :=
  readSlots (fillSlots tasks sched (List.replicate tasks.length none))

/-- The first failed task in completion order, if any. -/
def firstFailure (tasks : List (Except PyExc α)) (sched : List Nat) :
    Option PyExc :=
  sched.findSome? fun i =>
    match tasks[i]? with
    | some (Except.error e) => some e
    | _ => none

/-- Sequential collection of completed task results in submission order
(the first error, if any, propagates). -/
def collectResults : List (Except PyExc α) → Except PyExc (List α)
  | [] => .ok []
  | .error e :: _ => .error e
  | .ok a :: rest => (collectResults rest).map (a :: ·)

/-- `asyncio.gather` over fallible tasks: the first exception in completion
order propagates; otherwise the results are returned in submission order.
A schedule that never completes every task is marked `gatherPending`
(a real gather would simply never return; complete schedules never hit this
case). -/
def gatherExcept (tasks : List (Except PyExc α)) (sched : List Nat) :
    Except PyExc (List α) :=
  match firstFailure tasks sched with
  | some e => .error e
  | none =>
    match gatherValues tasks sched with
    | some rs => collectResults rs
    | none => .error .gatherPending

/-! ## Partition fetching and the streaming executor -/

/-- `_fetch_partition`: `GET` the partition URL, `raise_for_status`, and
return `data.get("data", [])`.  The `try/except` in the source logs and
re-raises, so the exception passes through unchanged. -/
def _fetch_partition (env : NetEnv) (url : String) :
    Except PyExc (List (List String)) :=
  match env.getPartition url with
  | .success resp => .ok (resp.data.getD [])
  | .httpError status text body => .error (.httpStatusError status text body)
  | .netError msg => .error (.netExc msg)

/-- The URL for one partition descriptor (source lines 174-190): use
`partition.get("url")` unless missing or empty (`if not p_url:`), in which
case fall back to `/api/v2/statements/{handle}?partition={index}`; then an
absolute `http...` URL is kept, a leading-slash path is resolved against
the base URL, and anything else is resolved against the statement's own
resource path. -/
def buildPartitionUrl (baseUrl statement_handle : String) (index : Nat)
    (u : Option String) : String :=
  let fallback :=
    "/api/v2/statements/" ++ statement_handle ++ "?partition=" ++
      toString index
  let p_url :=
    match u with
    | none => fallback
    | some s => if s == "" then fallback else s
  if pyStartsWith p_url "http" then p_url
  else if pyStartsWith p_url "/" then baseUrl ++ p_url
  else
    baseUrl ++ "/api/v2/statements/" ++ statement_handle ++ "/" ++ p_url

/-- The `tasks` list built by the partition loop (source lines 159-192) as
the list of URLs that will be fetched: enumerate the descriptors, skip
index 0 exactly when `has_initial_data`
(`if index == 0 and has_initial_data: continue`), and build each remaining
descriptor's URL. -/
def partitionTasks (baseUrl statement_handle : String)
    (partitions : List PartitionDesc) (has_initial_data : Bool) :
    List String :=
  (partitions.enum.filter fun p => !(p.1 == 0 && has_initial_data)).map
    fun p => buildPartitionUrl baseUrl statement_handle p.1 p.2.url

/-- Observable trace of one `execute_query_stream` generator run when fully
drained: the rows yielded (in order), the partition URLs requested over the
network, and the exception escaping the generator (after the `except`
chain), if any.  Rows yielded before a later failure are listed: a consumer
sees them before the exception surfaces. -/
structure StreamTrace where
  rows : List Row
  fetched : List String
  exc : Option PyExc
deriving DecidableEq, Repr

/-- `execute_query_stream` (source lines 86-222).  Mirrors the source
order: POST the payload and `raise_for_status`; read
`data["statementHandle"]`; fail on a non-empty top-level code other than
`"090001"`; lower-case the column names from
`data["resultSetMetaData"]["rowType"]`; yield the inline chunk's rows;
then, if `partitionInfo` is non-empty, build the task URLs (skipping index
0 exactly when the inline chunk is non-empty), gather them under the given
completion schedule, and yield each partition's rows in submission order.
Every exception is passed through the `except` chain (`handleExc`).
The `numRows` mismatch warning (source lines 151-156) only logs and is not
part of the observable trace. -/
def execute_query_stream (st : Settings) (env : NetEnv) (query : String)
    (bindings : Option (List (String × PyVal))) (sched : List Nat) :
    StreamTrace :=
  let payload := buildPayload st query bindings
  match env.post payload with
  | .netError msg => ⟨[], [], some (handleExc (.netExc msg))⟩
  | .httpError status text body =>
    ⟨[], [], some (handleExc (.httpStatusError status text body))⟩
  | .success data =>
    match data.statementHandle with
    | none => ⟨[], [], some (handleExc (.keyError "statementHandle"))⟩
    | some statement_handle =>
      if (data.code.getD "" != "") && (data.code.getD "" != "090001") then
        ⟨[], [], some (handleExc (.snowflakeMsg data.message))⟩
      else
        match data.resultSetMetaData with
        | none => ⟨[], [], some (handleExc (.keyError "resultSetMetaData"))⟩
        | some meta =>
          match meta.rowType with
          | none => ⟨[], [], some (handleExc (.keyError "rowType"))⟩
          | some rowType =>
            let column_names := rowType.map pyLower
            let inlineRows :=
              match data.data with
              | some rows => process_rows column_names rows
              | none => []
            let partitions := meta.partitionInfo.getD []
            if partitions.isEmpty then ⟨inlineRows, [], none⟩
            else
              let has_initial_data :=
                decide (0 < (data.data.getD []).length)
              let urls :=
                partitionTasks env.baseUrl statement_handle partitions
                  has_initial_data
              let tasks := urls.map (_fetch_partition env)
              match gatherExcept tasks sched with
              | .error e => ⟨inlineRows, urls, some (handleExc e)⟩
              | .ok results_list =>
                ⟨inlineRows ++
                    (results_list.map (process_rows column_names)).flatten,
                  urls, none⟩

/-- `execute_query` (source lines 75-84): drain the stream into a list.
The source appends each yielded row to `results`; when the generator raises
mid-iteration the exception propagates and the collected rows are
discarded, so the call returns rows only when the full drain succeeds. -/
def execute_query (st : Settings) (env : NetEnv) (query : String)
    (bindings : Option (List (String × PyVal))) (sched : List Nat) :
    Except PyExc (List Row) :=
  let trace := execute_query_stream st env query bindings sched
  match trace.exc with
  | none => .ok trace.rows
  | some e => .error e

/-- `check_connection` (source lines 224-231): run `SELECT 1` through
`execute_query` and convert any exception into `false`. -/
def check_connection (st : Settings) (env : NetEnv) (sched : List Nat) :
    Except PyExc Bool :=
  match execute_query st env "SELECT 1" none sched with
  | .ok _ => .ok true
  | .error _ => .ok false

/-! ## Concrete fixtures used by witnesses and counterexamples -/

/-- Settings fixture. -/
def testSettings : Settings := ⟨"wh", "db", "sc"⟩

/-- Base URL fixture. -/
def baseT : String := "https://acc.snowflakecomputing.com"

/-- A 2xx submission response whose top-level `code` is the given string,
with message `"Invalid warehouse"`, one column and one inline row. -/
def envCode (code : String) : NetEnv :=
  ⟨baseT,
   fun _ => .success ⟨some "h1", some code, some "Invalid warehouse",
     some ⟨some ["id"], none, none⟩, some [["1"]]⟩,
   fun _ => .success ⟨none⟩⟩

/-- A 2xx submission response listing three partition descriptors while the
inline chunk is empty. -/
def envEmptyInline : NetEnv :=
  ⟨baseT,
   fun _ => .success ⟨some "h1", none, none,
     some ⟨some ["id"],
       some [⟨some "/p0"⟩, ⟨some "/p1"⟩, ⟨some "/p2"⟩], none⟩,
     some []⟩,
   fun _ => .success ⟨some [["9"]]⟩⟩

/-- A 2xx submission response with two columns but a one-element row. -/
def envMismatch : NetEnv :=
  ⟨baseT,
   fun _ => .success ⟨some "h1", none, none,
     some ⟨some ["id", "name"], none, none⟩, some [["c1"]]⟩,
   fun _ => .success ⟨none⟩⟩

/-- A 422 response whose body parses as an upstream error object. -/
def env422 : NetEnv :=
  ⟨baseT,
   fun _ => .httpError 422 "raw body"
     (some ⟨some "390100", some "Invalid warehouse"⟩),
   fun _ => .success ⟨none⟩⟩

/-- A 500 response with an unparseable body. -/
def env500 : NetEnv :=
  ⟨baseT, fun _ => .httpError 500 "internal error page" none,
   fun _ => .success ⟨none⟩⟩

/-- A network environment in which every request fails at transport
level. -/
def envDown : NetEnv :=
  ⟨baseT, fun _ => .netError "connection refused",
   fun _ => .netError "connection refused"⟩

/-- Three partitions with a non-empty inline chunk; partitions 1 and 2
carry distinguishable rows. -/
def envParts : NetEnv :=
  ⟨baseT,
   fun _ => .success ⟨some "h1", none, none,
     some ⟨some ["id"],
       some [⟨some "/p0"⟩, ⟨some "/p1"⟩, ⟨some "/p2"⟩], some 3⟩,
     some [["1"]]⟩,
   fun url =>
     .success
       (if url == baseT ++ "/p1" then ⟨some [["2"]]⟩
        else if url == baseT ++ "/p2" then ⟨some [["3"]]⟩
        else ⟨some [["0"]]⟩)⟩

/-- Like `envParts` but partition 2's fetch fails with HTTP 503. -/
def envPartsFail : NetEnv :=
  ⟨baseT,
   fun _ => .success ⟨some "h1", none, none,
     some ⟨some ["id"],
       some [⟨some "/p0"⟩, ⟨some "/p1"⟩, ⟨some "/p2"⟩], some 3⟩,
     some [["1"]]⟩,
   fun url =>
     if url == baseT ++ "/p2" then .httpError 503 "unavailable" none
     else .success ⟨some [["2"]]⟩⟩

/-- The rows a partition fetch would deliver: `data.get("data", [])` of a
successful GET (irrelevant default for other outcomes). -/
def partData (env : NetEnv) (url : String) : List (List String) :=
  match env.getPartition url with
  | .success r => r.data.getD []
  | _ => []

/-- Decidable equality for `Except`, used to evaluate the embedding on
concrete inputs. -/
instance exceptDecidableEq [DecidableEq ε] [DecidableEq α] :
    DecidableEq (Except ε α) := fun x y =>
  match x, y with
  | .error a, .error b =>
    if h : a = b then .isTrue (congrArg Except.error h)
    else .isFalse (fun hc => h (Except.error.inj hc))
  | .ok a, .ok b =>
    if h : a = b then .isTrue (congrArg Except.ok h)
    else .isFalse (fun hc => h (Except.ok.inj hc))
  | .error _, .ok _ => .isFalse (fun hc => Except.noConfusion hc)
  | .ok _, .error _ => .isFalse (fun hc => Except.noConfusion hc)

/-! ## Helper lemmas -/

/-- The `except` chain re-raises the incoming exception unchanged on every
path: in the 422 branch the constructed `Exception` is raised inside the
handler's own `try` and caught by its `except Exception`, which re-raises
the original error. -/
theorem handleExc_eq (e : PyExc) : handleExc e = e := by
  cases e <;> try rfl
  case httpStatusError status text body =>
    simp only [handleExc]
    by_cases h : status == 422
    · cases attempted422 text body <;> simp [h]
    · simp [h]

theorem fillSlots_length (tasks : List α) (sched : List Nat)
    (slots : List (Option α)) :
    (fillSlots tasks sched slots).length = slots.length := by
  induction sched generalizing slots with
  | nil => rfl
  | cons i rest ih => simp [fillSlots, ih]

theorem fillSlots_getElem?_not_mem {tasks : List α} {sched : List Nat}
    {slots : List (Option α)} {j : Nat} (hj : j ∉ sched) :
    (fillSlots tasks sched slots)[j]? = slots[j]? := by
  induction sched generalizing slots with
  | nil => rfl
  | cons i rest ih =>
    have hji : i ≠ j := by
      rintro rfl
      exact hj (List.mem_cons_self _ _)
    have hjr : j ∉ rest := fun h => hj (List.mem_cons_of_mem _ h)
    rw [fillSlots, ih hjr, List.getElem?_set_ne hji]

theorem fillSlots_getElem?_mem {tasks : List α} {sched : List Nat}
    {slots : List (Option α)} {j : Nat} (hlen : slots.length = tasks.length)
    (hj : j ∈ sched) :
    (fillSlots tasks sched slots)[j]? = (tasks[j]?).map some := by
  induction sched generalizing slots with
  | nil => cases hj
  | cons i rest ih =>
    by_cases hr : j ∈ rest
    · rw [fillSlots]
      exact ih (by simp [hlen]) hr
    · have hij : j = i := by
        rcases List.mem_cons.mp hj with h | h
        · exact h
        · exact absurd h hr
      subst hij
      rw [fillSlots, fillSlots_getElem?_not_mem hr, List.getElem?_set]
      simp only [if_pos rfl]
      by_cases hlt : j < slots.length
      · rw [if_pos hlt, List.getElem?_eq_getElem (hlen ▸ hlt)]
        rfl
      · rw [if_neg hlt]
        rw [List.getElem?_eq_none (by omega : tasks.length ≤ j)]
        rfl


theorem readSlots_map_some (l : List α) : readSlots (l.map some) = some l := by
  induction l with
  | nil => rfl
  | cons a t ih => simp [readSlots, ih]

theorem collectResults_map_ok (l : List α) :
    collectResults (l.map Except.ok) = Except.ok l := by
  induction l with
  | nil => rfl
  | cons a t ih =>
    simp only [List.map_cons, collectResults, ih]
    rfl

/-- Fan-in completeness: once every task index has completed, reading the
slots out in submission order recovers exactly the task results in
submission order — whatever the completion order was. -/
theorem gatherValues_complete {tasks : List α} {sched : List Nat}
    (h : ∀ j, j < tasks.length → j ∈ sched) :
    gatherValues tasks sched = some tasks := by
  have hfill : fillSlots tasks sched (List.replicate tasks.length none)
      = tasks.map some := by
    apply List.ext_getElem?
    intro j
    rw [List.getElem?_map]
    by_cases hj : j ∈ sched
    · rw [fillSlots_getElem?_mem (by simp) hj]
    · have hge : tasks.length ≤ j := by
        by_contra hlt
        push_neg at hlt
        exact hj (h j hlt)
      rw [fillSlots_getElem?_not_mem hj,
        List.getElem?_eq_none (by simpa using hge),
        List.getElem?_eq_none hge]
      rfl
  rw [gatherValues, hfill, readSlots_map_some]

/-- `gather` over all-successful tasks, under any complete completion
schedule, returns the payloads in submission order. -/
theorem gatherExcept_map_ok {vs : List α} {sched : List Nat}
    (h : ∀ j, j < vs.length → j ∈ sched) :
    gatherExcept (vs.map Except.ok) sched = Except.ok vs := by
  have h1 : firstFailure (vs.map Except.ok) sched = none := by
    rw [firstFailure, List.findSome?_eq_none_iff]
    intro i _
    rw [List.getElem?_map]
    cases vs[i]? <;> rfl
  have h2 : gatherValues (vs.map (Except.ok : α → Except PyExc α)) sched
      = some (vs.map Except.ok) :=
    gatherValues_complete (by simpa using h)
  rw [gatherExcept, h1, h2]
  exact collectResults_map_ok vs

/-- `gather` fails whenever some scheduled task failed. -/
theorem gatherExcept_error {tasks : List (Except PyExc α)}
    {sched : List Nat} {i : Nat} {e : PyExc}
    (hi : tasks[i]? = some (Except.error e)) (hs : i ∈ sched) :
    ∃ e2, gatherExcept tasks sched = Except.error e2 := by
  rcases hff : firstFailure tasks sched with _ | e2
  · exfalso
    rw [firstFailure, List.findSome?_eq_none_iff] at hff
    have h := hff i hs
    rw [hi] at h
    simp at h
  · exact ⟨e2, by rw [gatherExcept, hff]⟩

theorem dictInsert_fresh {d : List (String × String)} {k v}
    (h : ∀ q ∈ d, q.1 ≠ k) : dictInsert d k v = d ++ [(k, v)] := by
  have hany : d.any (fun p => p.1 == k) = false := by
    rw [List.any_eq_false]
    intro p hp
    simpa using h p hp
  simp [dictInsert, hany]

theorem foldl_dictInsert_of_nodup :
    ∀ (ps acc : List (String × String)),
      (∀ p ∈ ps, ∀ q ∈ acc, p.1 ≠ q.1) → (ps.map Prod.fst).Nodup →
      ps.foldl (fun d p => dictInsert d p.1 p.2) acc = acc ++ ps := by
  intro ps
  induction ps with
  | nil => intro acc _ _; simp
  | cons p rest ih =>
    intro acc hdisj hnodup
    rw [List.foldl_cons]
    have hins : dictInsert acc p.1 p.2 = acc ++ [p] :=
      dictInsert_fresh (fun q hq => (hdisj p (by simp) q hq).symm)
    have hhead : p.1 ∉ rest.map Prod.fst := by
      have := hnodup
      rw [List.map_cons, List.nodup_cons] at this
      exact this.1
    rw [hins, ih (acc ++ [p]) ?_ ?_]
    · simp
    · intro r hr q hq
      rcases List.mem_append.mp hq with hq | hq
      · exact hdisj r (List.mem_cons_of_mem _ hr) q hq
      · have hqp : q = p := by simpa using hq
        subst hqp
        intro hcontra
        exact hhead (hcontra ▸ List.mem_map_of_mem Prod.fst hr)
    · have := hnodup
      rw [List.map_cons, List.nodup_cons] at this
      exact this.2

/-- `dict(pairs)` is the identity on pair lists with pairwise-distinct
keys. -/
theorem dictOfPairs_of_nodup {ps : List (String × String)}
    (h : (ps.map Prod.fst).Nodup) : dictOfPairs ps = ps := by
  have := foldl_dictInsert_of_nodup ps [] (by simp) h
  simpa [dictOfPairs] using this

theorem map_fst_zip_eq_take :
    ∀ (cols r : List String),
      ((cols.zip r).map Prod.fst) = cols.take r.length := by
  intro cols
  induction cols with
  | nil => intro r; simp
  | cons c cs ih =>
    intro r
    cases r with
    | nil => simp
    | cons a as => simp [ih as]

/-- With a non-empty inline chunk the partition loop skips exactly the
index-0 descriptor and builds a URL for every later descriptor, in index
order. -/
theorem partitionTasks_skip_head (base h : String) (p0 : PartitionDesc)
    (rest : List PartitionDesc) :
    partitionTasks base h (p0 :: rest) true
      = (rest.enumFrom 1).map
          (fun q => buildPartitionUrl base h q.1 q.2.url) := by
  rw [partitionTasks, List.enum_cons, List.filter_cons]
  have hcond : (!((((0 : Nat), p0)).1 == 0 && true)) = false := rfl
  rw [hcond]
  simp only [Bool.false_eq_true, if_false]
  congr 1
  rw [List.filter_eq_self]
  rintro ⟨i, a⟩ hx
  rw [List.mk_mem_enumFrom_iff_le_and_getElem?_sub] at hx
  have hi : i ≠ 0 := by omega
  simp [hi]

/-- With an empty inline chunk no descriptor is skipped. -/
theorem partitionTasks_no_skip (base h : String)
    (parts : List PartitionDesc) :
    partitionTasks base h parts false
      = parts.enum.map (fun q => buildPartitionUrl base h q.1 q.2.url) := by
  rw [partitionTasks]
  congr 1
  rw [List.filter_eq_self]
  intro x _
  simp

theorem partitionTasks_nil (base h : String) (b : Bool) :
    partitionTasks base h [] b = [] := rfl

theorem process_rows_nil (cols : List String) : process_rows cols [] = [] :=
  rfl

theorem _fetch_partition_ok {env : NetEnv} {url : String} {r : PartResponse}
    (h : env.getPartition url = .success r) :
    _fetch_partition env url = .ok (partData env url) := by
  simp [_fetch_partition, partData, h]

/-! ## Claim theorems -/

/-- C10: for every bindings mapping, a Python boolean value is formatted as
`{type: FIXED, value: "True" or "False"}` rather than as TEXT: the integer
branch of `_format_bindings` also matches booleans (Python `bool` is a
subclass of `int`), so the REAL and TEXT branches never receive one. -/
theorem bool_binding_formatted_fixed (bs : List (String × PyVal)) (i : Nat)
    (k : String) (b : Bool) (h : bs[i]? = some (k, PyVal.pyBool b)) :
    (_format_bindings bs)[i]?
        = some (k, ⟨"FIXED", if b then "True" else "False"⟩)
    ∧ isinstance_int (PyVal.pyBool b) = true
    ∧ isinstance_float (PyVal.pyBool b) = false := by
  refine ⟨?_, rfl, rfl⟩
  rw [_format_bindings, List.getElem?_map, h]
  cases b <;> rfl

/-- Witness for C10: the binding `{"flag": True}` is formatted as
`{type: FIXED, value: "True"}`. -/
theorem bool_binding_formatted_fixed_witness :
    (_format_bindings [("flag", PyVal.pyBool true)])[0]?
      = some ("flag", ⟨"FIXED", "True"⟩) := by
  have h :=
    bool_binding_formatted_fixed [("flag", PyVal.pyBool true)] 0 "flag" true
      rfl
  simpa using h.1

/-- C4 counterexample: a chunk whose row has fewer values than there are
column names decodes without any error — `dict(zip(...))` silently
truncates — so a length mismatch is *not* a protocol error: the call
succeeds and returns a truncated row (columns `["id", "name"]`, row
`["c1"]`). -/
theorem row_length_mismatch_truncates_cex :
    execute_query testSettings envMismatch "SELECT 1" none []
      = Except.ok [[("id", "c1")]]
    ∧ ([("id", "c1")] : Row).length ≠ (["id", "name"] : List String).length
      := by
  exact ⟨by decide, by decide⟩

/-- C4 amended: rows are decoded positionally by zipping the column-name
list with the value array; on a length mismatch the row is silently
truncated to the shorter of the two lists and no error is raised. -/
theorem row_decoding_zip_truncates (cols : List String)
    (rows : List (List String)) (hnodup : cols.Nodup) :
    process_rows cols rows = rows.map (fun r => cols.zip r)
    ∧ ∀ r ∈ rows, (cols.zip r).length = min cols.length r.length := by
  constructor
  · rw [process_rows]
    apply List.map_congr_left
    intro r _
    apply dictOfPairs_of_nodup
    rw [map_fst_zip_eq_take]
    exact hnodup.sublist (List.take_sublist _ _)
  · intro r _
    exact List.length_zip _ _

/-- Witness for C4: the spec's own example
`decodeRows(["id","name"], [["c1","Company 1"]])` decodes to
`[{id: "c1", name: "Company 1"}]`, and the mismatched
`decodeRows(["id","name"], [["c1"]])` silently truncates. -/
theorem row_decoding_zip_truncates_witness :
    process_rows ["id", "name"] [["c1", "Company 1"]]
      = [[("id", "c1"), ("name", "Company 1")]]
    ∧ process_rows ["id", "name"] [["c1"]] = [[("id", "c1")]] := by
  have h1 :=
    row_decoding_zip_truncates ["id", "name"] [["c1", "Company 1"]]
      (by decide)
  have h2 := row_decoding_zip_truncates ["id", "name"] [["c1"]] (by decide)
  exact ⟨by rw [h1.1]; rfl, by rw [h2.1]; rfl⟩

/-- C1 counterexample: two 2xx submissions that differ **only** in their
top-level code (`"390100"` vs `"390200"`, same message) make
`execute_query` raise the *identical* error value, which carries only the
message — so the raised error does not carry the upstream code and is not
`UpstreamError{code, message}`. -/
theorem upstream_code_dropped_cex :
    execute_query testSettings (envCode "390100") "SELECT 1" none []
      = Except.error (PyExc.snowflakeMsg (some "Invalid warehouse"))
    ∧ execute_query testSettings (envCode "390200") "SELECT 1" none []
      = execute_query testSettings (envCode "390100") "SELECT 1" none []
      := by
  exact ⟨by decide, by decide⟩

/-- C1 amended: a 2xx submission response that carries a statement handle
and a non-empty top-level code other than `"090001"` makes `execute_query`
fail with the error `Exception(f"Snowflake Error: {message}")`, which
carries the upstream message verbatim but not the code. -/
theorem upstream_code_failure_message_only (st : Settings) (env : NetEnv)
    (query : String) (bindings : Option (List (String × PyVal)))
    (sched : List Nat) (statement_handle : String) (code : String)
    (message : Option String) (meta : Option RSMeta)
    (dataField : Option (List (List String)))
    (hpost : env.post (buildPayload st query bindings)
      = .success ⟨some statement_handle, some code, message, meta,
          dataField⟩)
    (hc1 : code ≠ "") (hc2 : code ≠ "090001") :
    execute_query st env query bindings sched
      = Except.error (PyExc.snowflakeMsg message) := by
  have hb : ((code != "") && (code != "090001")) = true := by
    simp [hc1, hc2]
  simp only [execute_query, execute_query_stream, hpost, Option.getD_some,
    hb, if_true, handleExc_eq]

/-- Witness for C1 amended: code `"390100"`, message `"Invalid warehouse"`
yields the message-only error. -/
theorem upstream_code_failure_message_only_witness :
    execute_query testSettings (envCode "390100") "SELECT 1" none []
      = Except.error (PyExc.snowflakeMsg (some "Invalid warehouse")) :=
  upstream_code_failure_message_only testSettings (envCode "390100")
    "SELECT 1" none [] "h1" "390100" (some "Invalid warehouse")
    (some ⟨some ["id"], none, none⟩) (some [["1"]]) rfl (by decide)
    (by decide)

/-- C5 counterexample: a 422 response whose body *is* a parseable upstream
error object (`code "390100"`, message `"Invalid warehouse"`) still makes
the call raise the generic `httpx.HTTPStatusError` — not
`UpstreamError{code, message}` — because the handler's
`raise Exception(f"Snowflake Error [{code}]: {message}")` sits inside its
own `try` block and is swallowed by `except Exception: raise e`.
`attempted422` exhibits the parsed error that never escapes. -/
theorem non2xx_parseable_body_generic_cex :
    attempted422 "raw body" (some ⟨some "390100", some "Invalid warehouse"⟩)
      = some (PyExc.snowflakeCoded "390100" "Invalid warehouse")
    ∧ execute_query testSettings env422 "SELECT 1" none []
      = Except.error (PyExc.httpStatusError 422 "raw body"
          (some ⟨some "390100", some "Invalid warehouse"⟩))
    ∧ PyExc.httpStatusError 422 "raw body"
          (some ⟨some "390100", some "Invalid warehouse"⟩)
      ≠ PyExc.snowflakeCoded "390100" "Invalid warehouse" := by
  exact ⟨by decide, by decide, by decide⟩

/-- C5 amended: on every non-2xx HTTP status the call raises the generic
HTTP status error carrying the raw status and body; the 422 branch parses
the body and logs the parsed code and message but re-raises the generic
error, and no other status attempts body parsing at all. -/
theorem non2xx_raises_generic_http_error (st : Settings) (env : NetEnv)
    (query : String) (bindings : Option (List (String × PyVal)))
    (sched : List Nat) (status : Nat) (text : String)
    (body : Option ErrBody)
    (hpost : env.post (buildPayload st query bindings)
      = .httpError status text body) :
    execute_query st env query bindings sched
      = Except.error (PyExc.httpStatusError status text body) := by
  simp only [execute_query, execute_query_stream, hpost, handleExc_eq]

/-- Witness for C5 amended: a 500 with an unparseable body raises the
generic error with the raw status and body. -/
theorem non2xx_raises_generic_http_error_witness :
    execute_query testSettings env500 "SELECT 1" none []
      = Except.error (PyExc.httpStatusError 500 "internal error page" none)
      :=
  non2xx_raises_generic_http_error testSettings env500 "SELECT 1" none []
    500 "internal error page" none rfl

/-- C6 counterexample: two `get_snowflake_jwt` calls only 2 seconds apart
(well within the same minute) can return *different* token strings: with a
cached token generated at time 0 (`exp = 3540`), a call at `t = 3239` still
hits the cache (3239 < 3540 − 300) but a call at `t = 3241` falls inside
the 5-minute buffer and regenerates a token with a fresh `iat`. -/
theorem token_same_minute_cex :
    ((3241 : Int) - 3239 < 60)
    ∧ (get_snowflake_jwt ⟨"acc", "usr", "fp"⟩
          (some (makeJwt ⟨"acc", "usr", "fp"⟩ 0, 3540)) 3239).1
        ≠ (get_snowflake_jwt ⟨"acc", "usr", "fp"⟩
            ((get_snowflake_jwt ⟨"acc", "usr", "fp"⟩
                (some (makeJwt ⟨"acc", "usr", "fp"⟩ 0, 3540)) 3239).2)
            3241).1 := by
  exact ⟨by decide, by decide⟩

/-- C6 amended: `get_snowflake_jwt` caches `(token, exp)` with
`exp = now + 59 minutes` on every (re)generation; it returns the cached
token unchanged exactly when `now < exp − 5 minutes` and regenerates
otherwise; two calls within the same minute return an identical token
*provided the first of them (re)generated the token* (in particular from an
empty cache); and any call at or after the 5-minute buffer returns a token
different from the cached one (fresh `iat`). -/
theorem token_cache_policy (c : Creds) :
    (∀ now, get_snowflake_jwt c none now
        = (makeJwt c now, some (makeJwt c now, now + tokenLifetime)))
    ∧ (∀ tok ea now, now < ea - renewalBuffer →
        get_snowflake_jwt c (some (tok, ea)) now = (tok, some (tok, ea)))
    ∧ (∀ tok ea now, ¬ now < ea - renewalBuffer →
        get_snowflake_jwt c (some (tok, ea)) now
          = (makeJwt c now, some (makeJwt c now, now + tokenLifetime)))
    ∧ (∀ cache t1 t2, t1 ≤ t2 → t2 < t1 + 60 →
        (get_snowflake_jwt c cache t1).2
            = some (makeJwt c t1, t1 + tokenLifetime) →
        (get_snowflake_jwt c ((get_snowflake_jwt c cache t1).2) t2).1
          = (get_snowflake_jwt c cache t1).1)
    ∧ (∀ tok ea now, tok.exp = ea → tok.iat + tokenLifetime = tok.exp →
        ¬ now < ea - renewalBuffer →
        (get_snowflake_jwt c (some (tok, ea)) now).1 ≠ tok) := by
  refine ⟨fun now => rfl, ?_, ?_, ?_, ?_⟩
  · intro tok ea now h
    simp [get_snowflake_jwt, h]
  · intro tok ea now h
    simp [get_snowflake_jwt, h]
  · intro cache t1 t2 h12 h60 hgen
    have hbuf : t2 < (t1 + tokenLifetime) - renewalBuffer := by
      have hlt : tokenLifetime = 3540 := rfl
      have hrb : renewalBuffer = 300 := rfl
      omega
    have hfst : (get_snowflake_jwt c cache t1).1 = makeJwt c t1 := by
      rcases cache with _ | ⟨tok, ea⟩
      · rfl
      · simp only [get_snowflake_jwt] at hgen ⊢
        by_cases hb : t1 < ea - renewalBuffer
        · rw [if_pos hb] at hgen ⊢
          simp only [Option.some.injEq, Prod.mk.injEq] at hgen
          exact hgen.1
        · rw [if_neg hb]
    rw [hgen, hfst]
    simp only [get_snowflake_jwt, if_pos hbuf]
  · intro tok ea now hexp hiat hb
    simp only [get_snowflake_jwt, if_neg hb]
    intro hcontra
    have hiat2 : (makeJwt c now).iat = tok.iat := by rw [hcontra]
    have hnow : now = tok.iat := hiat2
    have hlt : tokenLifetime = 3540 := rfl
    have hrb : renewalBuffer = 300 := rfl
    omega

/-- Witness for C6 amended: a cache hit well before the buffer, same-minute
reuse after a fresh generation, and regeneration inside the buffer. -/
theorem token_cache_policy_witness :
    get_snowflake_jwt ⟨"acc", "usr", "fp"⟩
        (some (makeJwt ⟨"acc", "usr", "fp"⟩ 0, 3540)) 100
      = (makeJwt ⟨"acc", "usr", "fp"⟩ 0,
          some (makeJwt ⟨"acc", "usr", "fp"⟩ 0, 3540))
    ∧ (get_snowflake_jwt ⟨"acc", "usr", "fp"⟩
          ((get_snowflake_jwt ⟨"acc", "usr", "fp"⟩ none 0).2) 59).1
        = (get_snowflake_jwt ⟨"acc", "usr", "fp"⟩ none 0).1
    ∧ (get_snowflake_jwt ⟨"acc", "usr", "fp"⟩
          (some (makeJwt ⟨"acc", "usr", "fp"⟩ 0, 3540)) 3300).1
        ≠ makeJwt ⟨"acc", "usr", "fp"⟩ 0 := by
  have h := token_cache_policy ⟨"acc", "usr", "fp"⟩
  refine ⟨?_, ?_, ?_⟩
  · have h2 := h.2.1 (makeJwt ⟨"acc", "usr", "fp"⟩ 0) 3540 100 (by decide)
    rw [h2]
  · exact h.2.2.2.1 none 0 59 (by decide) (by decide) (by decide)
  · exact h.2.2.2.2 (makeJwt ⟨"acc", "usr", "fp"⟩ 0) 3540 3300 (by decide)
      (by decide) (by decide)

/-- C7: `check_connection` never raises: it returns `Except.ok` of some
boolean in every environment (including transport failures), returns `true`
exactly when the trivial `SELECT 1` submission succeeds, and returns
`false` whenever it fails for any reason.  It is the only operation of the
client that catches errors: `execute_query` and `execute_query_stream`
propagate them (their results carry the exception). -/
theorem check_connection_never_raises (st : Settings) (env : NetEnv)
    (sched : List Nat) :
    (∃ b, check_connection st env sched = Except.ok b)
    ∧ (check_connection st env sched = Except.ok true
        ↔ ∃ rows, execute_query st env "SELECT 1" none sched
            = Except.ok rows)
    ∧ (∀ e, execute_query st env "SELECT 1" none sched = Except.error e →
        check_connection st env sched = Except.ok false) := by
  rcases hq : execute_query st env "SELECT 1" none sched with e | rows
  · refine ⟨⟨false, ?_⟩, ?_, ?_⟩
    · rw [check_connection, hq]
    · rw [check_connection, hq]
      constructor
      · intro h
        exact absurd h (by simp)
      · rintro ⟨rows, hr⟩
        exact Except.noConfusion hr
    · intro e2 _
      rw [check_connection, hq]
  · refine ⟨⟨true, ?_⟩, ?_, ?_⟩
    · rw [check_connection, hq]
    · rw [check_connection, hq]
      exact ⟨fun _ => ⟨rows, rfl⟩, fun _ => rfl⟩
    · intro e he
      exact Except.noConfusion he

/-- Witness for C7: with the network down `check_connection` returns
`Except.ok false` (it does not raise), and with a healthy response it
returns `Except.ok true`. -/
theorem check_connection_never_raises_witness :
    check_connection testSettings envDown [] = Except.ok false
    ∧ check_connection testSettings envMismatch [] = Except.ok true := by
  constructor
  · exact (check_connection_never_raises testSettings envDown []).2.2
      (PyExc.netExc "connection refused") (by decide)
  · exact (check_connection_never_raises testSettings envMismatch
      []).2.1.mpr ⟨[[("id", "c1")]], by decide⟩

/-- C9: the eager `execute_query` is exactly the drain of the lazy
`execute_query_stream`: it returns `rows` iff fully draining the stream
yields `rows` with no exception, and it fails with `e` iff draining the
stream raises `e`. -/
theorem execute_query_drains_stream (st : Settings) (env : NetEnv)
    (query : String) (bindings : Option (List (String × PyVal)))
    (sched : List Nat) :
    (∀ rows, execute_query st env query bindings sched = Except.ok rows
      ↔ ((execute_query_stream st env query bindings sched).exc = none
        ∧ (execute_query_stream st env query bindings sched).rows = rows))
    ∧ (∀ e, execute_query st env query bindings sched = Except.error e
      ↔ (execute_query_stream st env query bindings sched).exc = some e)
      := by
  rcases hx : (execute_query_stream st env query bindings sched).exc
    with _ | e0
  · constructor
    · intro rows
      simp only [execute_query, hx]
      simp
    · intro e
      simp only [execute_query, hx]
      simp
  · constructor
    · intro rows
      simp only [execute_query, hx]
      simp
    · intro e
      simp only [execute_query, hx]
      simp

/-- C3: for every successful execution the output row order is
deterministic and independent of network completion order: the schedule
`sched` (the order in which partition fetches complete) is arbitrary, yet
the yielded rows are exactly the inline-chunk rows in their original order
followed by the partition rows in ascending partition-index order
(`partitionTasks` enumerates descriptors in index order), and the
conclusion does not mention `sched` at all. -/
theorem merge_order_deterministic (st : Settings) (env : NetEnv)
    (query : String) (bindings : Option (List (String × PyVal)))
    (sched : List Nat) (statement_handle : String) (code : Option String)
    (message : Option String) (names : List String)
    (parts : List PartitionDesc) (numRows : Option Nat)
    (dataField : Option (List (List String)))
    (hpost : env.post (buildPayload st query bindings)
      = .success ⟨some statement_handle, code, message,
          some ⟨some names, some parts, numRows⟩, dataField⟩)
    (hcode : ((code.getD "" != "") && (code.getD "" != "090001")) = false)
    (hfetch : ∀ url ∈ partitionTasks env.baseUrl statement_handle parts
        (decide (0 < (dataField.getD []).length)),
        ∃ r, env.getPartition url = .success r)
    (hsched : ∀ j, j < (partitionTasks env.baseUrl statement_handle parts
        (decide (0 < (dataField.getD []).length))).length → j ∈ sched) :
    execute_query_stream st env query bindings sched
      = ⟨process_rows (names.map pyLower) (dataField.getD [])
          ++ ((partitionTasks env.baseUrl statement_handle parts
                (decide (0 < (dataField.getD []).length))).map
              (fun u => process_rows (names.map pyLower)
                  (partData env u))).flatten,
         partitionTasks env.baseUrl statement_handle parts
            (decide (0 < (dataField.getD []).length)),
         none⟩ := by
  have htasks : (partitionTasks env.baseUrl statement_handle parts
        (decide (0 < (dataField.getD []).length))).map
          (_fetch_partition env)
      = ((partitionTasks env.baseUrl statement_handle parts
            (decide (0 < (dataField.getD []).length))).map
          (partData env)).map Except.ok := by
    rw [List.map_map]
    apply List.map_congr_left
    intro u hu
    obtain ⟨r, hr⟩ := hfetch u hu
    have h2 := _fetch_partition_ok hr
    simpa [Function.comp] using h2
  have hgather : gatherExcept
      ((partitionTasks env.baseUrl statement_handle parts
          (decide (0 < (dataField.getD []).length))).map
        (_fetch_partition env)) sched
      = Except.ok ((partitionTasks env.baseUrl statement_handle parts
          (decide (0 < (dataField.getD []).length))).map
          (partData env)) := by
    rw [htasks]
    exact gatherExcept_map_ok (by simpa using hsched)
  rcases dataField with _ | d <;> rcases parts with _ | ⟨p0, rest⟩ <;>
    simp only [execute_query_stream, hpost, hcode, Option.getD_some,
      Option.getD_none, Bool.false_eq_true, if_false, List.isEmpty_nil,
      List.isEmpty_cons, if_true, List.map_map] at hgather ⊢ <;>
    simp_all [List.map_map, Function.comp_def, partitionTasks_nil,
      process_rows_nil]

/-- Witness for C3: three descriptors, non-empty inline chunk,
completion schedule `[1, 0]` (partition 2 finishes before partition 1):
the rows still come out as inline, partition 1, partition 2. -/
theorem merge_order_deterministic_witness :
    execute_query_stream testSettings envParts "SELECT 1" none [1, 0]
      = ⟨[[("id", "1")], [("id", "2")], [("id", "3")]],
         [baseT ++ "/p1", baseT ++ "/p2"], none⟩ := by
  refine Eq.trans
    (merge_order_deterministic testSettings envParts "SELECT 1" none [1, 0]
      "h1" none none ["id"]
      [⟨some "/p0"⟩, ⟨some "/p1"⟩, ⟨some "/p2"⟩] (some 3) (some [["1"]])
      (by decide) (by decide) ?_ ?_)
    (by decide)
  · intro url _
    exact ⟨_, rfl⟩
  · intro j hj
    have h2 : (partitionTasks envParts.baseUrl "h1"
        [⟨some "/p0"⟩, ⟨some "/p1"⟩, ⟨some "/p2"⟩]
        (decide (0 < ((some [["1"]] :
          Option (List (List String))).getD []).length))).length = 2 := by
      decide
    rw [h2] at hj
    have hcase : j = 0 ∨ j = 1 := by omega
    rcases hcase with rfl | rfl <;> decide

/-- C2 counterexample: with partition descriptors `[P0, P1, P2]` but an
*empty* inline chunk, the descriptor with index 0 **is** fetched over the
network — 3 fetches occur, not 2, and P0's URL is among them.  Index 0 is
skipped only when the inline chunk actually contains data
(`if index == 0 and has_initial_data`), not always. -/
theorem partition_zero_fetched_when_inline_empty_cex :
    (execute_query_stream testSettings envEmptyInline "SELECT 1" none
        [0, 1, 2]).fetched.length = 3
    ∧ (baseT ++ "/p0") ∈ (execute_query_stream testSettings envEmptyInline
        "SELECT 1" none [0, 1, 2]).fetched := by
  exact ⟨by decide, by decide⟩

/-- C2 amended: the index-0 descriptor is skipped exactly when the inline
chunk is non-empty: with descriptors `[P0, ...rest]` and a non-empty
inline chunk the fetched URLs are those of `rest` (indices from 1) in
index order, so exactly `rest.length` partition fetches occur and the
index-0 descriptor is never among them; with an empty inline chunk index 0
is fetched too. -/
theorem partition_zero_skipped_iff_inline_nonempty (st : Settings)
    (env : NetEnv) (query : String)
    (bindings : Option (List (String × PyVal))) (sched : List Nat)
    (statement_handle : String) (code : Option String)
    (message : Option String) (names : List String) (p0 : PartitionDesc)
    (rest : List PartitionDesc) (numRows : Option Nat)
    (d : List (List String))
    (hpost : env.post (buildPayload st query bindings)
      = .success ⟨some statement_handle, code, message,
          some ⟨some names, some (p0 :: rest), numRows⟩, some d⟩)
    (hcode : ((code.getD "" != "") && (code.getD "" != "090001")) = false)
    (hd : d ≠ []) :
    (execute_query_stream st env query bindings sched).fetched
      = (rest.enumFrom 1).map
          (fun q => buildPartitionUrl env.baseUrl statement_handle q.1
              q.2.url)
    ∧ (execute_query_stream st env query bindings sched).fetched.length
        = rest.length := by
  have hpos : 0 < d.length := List.length_pos.mpr hd
  have hd2 : decide (0 < d.length) = true := decide_eq_true hpos
  have hskip := partitionTasks_skip_head env.baseUrl statement_handle p0
    rest
  simp only [execute_query_stream, hpost, Option.getD_some, hcode,
    Bool.false_eq_true, if_false, List.isEmpty_cons]
  rcases hg : gatherExcept ((partitionTasks env.baseUrl statement_handle
      (p0 :: rest) (decide (0 < d.length))).map
        (_fetch_partition env)) sched with e | rs <;>
    simp only [hg] <;>
    rw [hd2, hskip] <;>
    simp [List.enumFrom_length]

/-- Witness for C2 amended: descriptors `[P0, P1, P2]` with a non-empty
inline chunk produce exactly 2 fetches, for P1's and P2's URLs only. -/
theorem partition_zero_skipped_witness :
    (execute_query_stream testSettings envParts "SELECT 1" none
        [0, 1]).fetched
      = [baseT ++ "/p1", baseT ++ "/p2"]
    ∧ (execute_query_stream testSettings envParts "SELECT 1" none
        [0, 1]).fetched.length = 2 := by
  have h := partition_zero_skipped_iff_inline_nonempty testSettings
    envParts "SELECT 1" none [0, 1] "h1" none none ["id"] ⟨some "/p0"⟩
    [⟨some "/p1"⟩, ⟨some "/p2"⟩] (some 3) [["1"]] (by decide) (by decide)
    (by decide)
  exact ⟨h.1.trans (by decide), h.2.trans (by decide)⟩

/-- C8: if any single partition fetch fails (its task resolves to an
exception), the whole `execute_query` call fails: the result is an error
and no rows — not even the inline chunk's or the other partitions' — are
returned. -/
theorem partition_failure_aborts_all (st : Settings) (env : NetEnv)
    (query : String) (bindings : Option (List (String × PyVal)))
    (sched : List Nat) (statement_handle : String) (code : Option String)
    (message : Option String) (names : List String)
    (parts : List PartitionDesc) (numRows : Option Nat)
    (dataField : Option (List (List String))) (i : Nat) (u : String)
    (e : PyExc)
    (hpost : env.post (buildPayload st query bindings)
      = .success ⟨some statement_handle, code, message,
          some ⟨some names, some parts, numRows⟩, dataField⟩)
    (hcode : ((code.getD "" != "") && (code.getD "" != "090001")) = false)
    (hurl : (partitionTasks env.baseUrl statement_handle parts
        (decide (0 < (dataField.getD []).length)))[i]? = some u)
    (hfail : _fetch_partition env u = Except.error e)
    (hsched : i ∈ sched) :
    ∃ e2, execute_query st env query bindings sched = Except.error e2 := by
  have htask : ((partitionTasks env.baseUrl statement_handle parts
      (decide (0 < (dataField.getD []).length))).map
        (_fetch_partition env))[i]? = some (Except.error e) := by
    rw [List.getElem?_map, hurl]
    simp [hfail]
  obtain ⟨e2, hg⟩ := gatherExcept_error htask hsched
  refine ⟨handleExc e2, ?_⟩
  rcases parts with _ | ⟨p0, rest⟩
  · rw [partitionTasks_nil] at hurl
    simp at hurl
  · rcases dataField with _ | d <;>
      simp only [Option.getD_none, Option.getD_some] at hg <;>
      simp only [execute_query, execute_query_stream, hpost,
        Option.getD_some, Option.getD_none, hcode, Bool.false_eq_true,
        if_false, List.isEmpty_cons, hg]

/-- Witness for C8: three partitions with a healthy inline chunk and
healthy partition 1, but partition 2's fetch returns HTTP 503: the whole
call errors out. -/
theorem partition_failure_aborts_all_witness :
    ∃ e2, execute_query testSettings envPartsFail "SELECT 1" none [0, 1]
      = Except.error e2 := by
  exact partition_failure_aborts_all testSettings envPartsFail "SELECT 1"
    none [0, 1] "h1" none none ["id"]
    [⟨some "/p0"⟩, ⟨some "/p1"⟩, ⟨some "/p2"⟩] (some 3) (some [["1"]]) 1
    (baseT ++ "/p2") (PyExc.httpStatusError 503 "unavailable" none)
    (by decide) (by decide) (by decide) (by decide) (by decide)

/-- Witness for C9: draining the stream of a partitioned response gives
exactly the eager result. -/
theorem execute_query_drains_stream_witness :
    execute_query testSettings envParts "SELECT 1" none [0, 1]
      = Except.ok [[("id", "1")], [("id", "2")], [("id", "3")]] := by
  have h := (execute_query_drains_stream testSettings envParts "SELECT 1"
    none [0, 1]).1 [[("id", "1")], [("id", "2")], [("id", "3")]]
  exact h.mpr ⟨by decide, by decide⟩
